import Mathlib

/-!
A shallow embedding of `src/timedb.py` (galaxy-timedb), a utility that keeps a
local SQLite cache of per-tool runtime statistics synchronized with a remote
Galaxy tool catalog.  Python strings are modelled as `List Char`, SQL tables as
lists of rows, timestamps as integers, and Python exceptions as an `Except`
error type.  The external collaborators (the PostgreSQL historical-run source
and the HTTP catalog fetch) are parameters of the reconciliation model.
-/

namespace TimeDB

/-- Python strings, modelled as their character lists. -/
abbrev Str := List Char

/-- The run-time errors the program can raise on the paths modelled here.
`invariantViolation` is the `assert self.id.startswith(self.base_id)` failure,
`versionMismatch` the `assert self.version == id_version` failure (both are
Python `AssertionError`s, named by their sites as the spec does),
`typeError` is `int(None)`, `unboundLocal` a read of a local variable that was
never assigned, `attributeError` a missing attribute lookup, and `valueError`
a failed tuple unpacking. -/
inductive PyErr where
  | invariantViolation
  | versionMismatch
  | typeError
  | unboundLocal
  | attributeError
  | valueError
deriving DecidableEq, Repr

/-- Python `s.rsplit(sep, 1)` restricted to the case where `sep` occurs in
`s`: `some (before, after)` splits `s` at the LAST occurrence of `sep`
(so `after` contains no `sep`), and `none` means `sep` does not occur
(`sep in s` is false). -/
def rsplitChar (sep : Char) : Str → Option (Str × Str)
  | [] => none
  | c :: rest =>
    match rsplitChar sep rest with
    | some (a, b) => some (c :: a, b)
    | none => if c = sep then some ([], rest) else none

/-- In-memory `Tool` object (class `Tool`), after `__init__` has stored the
constructor arguments.  `base_id` is `None` until `set_base_id` resolves it.
The stats columns are nullable (`None` until first computation); `run_count`
defaults to the `-1` sentinel. -/
structure Tool where
  id : Str
  version : Str
  base_id : Option Str
  update_time : Option Int
  run_count : Int
  min_runtime : Option Int
  median_runtime : Option Int
  mean_runtime : Option Int
  pct95_runtime : Option Int
  pct99_runtime : Option Int
  max_runtime : Option Int
  active : Bool
deriving DecidableEq, Repr

/-- `Tool.set_base_id`.  With an explicit `base_id`, asserts
`self.id.startswith(self.base_id)`; otherwise, when `"/" in self.id`
(exactly when `rsplitChar` returns `some`), splits on the last `/` and
asserts the suffix equals the supplied version; otherwise the full id
becomes its own base id. -/
def set_base_id (t : Tool) : Except PyErr Tool :=
  match t.base_id with
  | some b =>
    if b.isPrefixOf t.id then Except.ok t
    else Except.error PyErr.invariantViolation
  | none =>
    match rsplitChar '/' t.id with
    | some (b, id_version) =>
      if t.version = id_version then Except.ok { t with base_id := some b }
      else Except.error PyErr.versionMismatch
    | none => Except.ok { t with base_id := some t.id }

/-- `Tool.__init__(id, version, base_id, update_time, run_count,
min_runtime, median_runtime, mean_runtime, pct95_runtime, pct99_runtime,
max_runtime, active)`: stores every argument, then runs `set_base_id`
(the `assert version is not None` holds by the typing of `version`). -/
def mkTool (id version : Str) (base_id : Option Str) (update_time : Option Int)
    (run_count : Int)
    (min_runtime median_runtime mean_runtime pct95_runtime pct99_runtime
      max_runtime : Option Int) (active : Bool) : Except PyErr Tool :=
  set_base_id
    { id := id, version := version, base_id := base_id,
      update_time := update_time, run_count := run_count,
      min_runtime := min_runtime, median_runtime := median_runtime,
      mean_runtime := mean_runtime, pct95_runtime := pct95_runtime,
      pct99_runtime := pct99_runtime, max_runtime := max_runtime,
      active := active }

/-- `Tool(id, version)` with every other argument at its Python default. -/
def mkToolDefault (id version : Str) : Except PyErr Tool :=
  mkTool id version none none (-1) none none none none none none true

/-- The `Tool.key` property: `f"{base_id}/{version}"` (Python renders a
`None` base id as the text `None`). -/
def Tool.key (t : Tool) : Str :=
  (match t.base_id with
   | some b => b
   | none => "None".data) ++ '/' :: t.version

/-- One row of the `SUMMARY_SQL` aggregation result (a `NamedTupleCursor`
row).  Over zero matching runs every SQL aggregate is NULL, hence the
`Option`; numeric values are modelled as rationals. -/
structure Summary where
  min : Option ℚ
  quant_1st : Option ℚ
  median : Option ℚ
  mean : Option ℚ
  quant_3rd : Option ℚ
  perc_95 : Option ℚ
  perc_99 : Option ℚ
  max : Option ℚ
  sum : Option ℚ
  stddev : Option ℚ
deriving DecidableEq, Repr

/-- The summary of zero matching runs: every aggregate is NULL. -/
def emptySummary : Summary :=
  { min := none, quant_1st := none, median := none, mean := none,
    quant_3rd := none, perc_95 := none, perc_99 := none, max := none,
    sum := none, stddev := none }

/-- Python `int(q)` on a number: truncation toward zero. -/
def pyInt (q : ℚ) : Int := if 0 ≤ q then ⌊q⌋ else ⌈q⌉

/-- Python `int(v)` on a nullable value: `int(None)` raises `TypeError`. -/
def pyIntOpt : Option ℚ → Except PyErr Int
  | none => Except.error PyErr.typeError
  | some q => Except.ok (pyInt q)

/-- `Tool.update_stats(summary)`: sets the six persisted runtime fields to
`int(...)` of the corresponding summary fields, in source order
(min, median, mean, perc_95, perc_99, max).  A `TypeError` from `int(None)`
propagates; field writes made before the failing one are discarded with the
abandoned object. -/
def Tool.update_stats (t : Tool) (s : Summary) : Except PyErr Tool := do
  let mn ← pyIntOpt s.min
  let md ← pyIntOpt s.median
  let me ← pyIntOpt s.mean
  let p95 ← pyIntOpt s.perc_95
  let p99 ← pyIntOpt s.perc_99
  let mx ← pyIntOpt s.max
  Except.ok
    { t with min_runtime := some mn, median_runtime := some md,
             mean_runtime := some me, pct95_runtime := some p95,
             pct99_runtime := some p99, max_runtime := some mx }

/-- The named parameters `Tool.upsert_values()` supplies to the SQLite
statements (`INSERT_TOOL_SQL`, `UPDATE_TOOL_SQL`, `DEACTIVATE_TOOL_SQL`;
statements that use fewer named placeholders simply ignore the rest). -/
structure UpsertValues where
  tool_id : Str
  base_tool_id : Option Str
  tool_version : Str
  run_count : Int
  min_runtime : Option Int
  median_runtime : Option Int
  mean_runtime : Option Int
  pct95_runtime : Option Int
  pct99_runtime : Option Int
  max_runtime : Option Int
deriving DecidableEq, Repr

/-- `Tool.upsert_values()`. -/
def Tool.upsert_values (t : Tool) : UpsertValues :=
  { tool_id := t.id, base_tool_id := t.base_id, tool_version := t.version,
    run_count := t.run_count, min_runtime := t.min_runtime,
    median_runtime := t.median_runtime, mean_runtime := t.mean_runtime,
    pct95_runtime := t.pct95_runtime, pct99_runtime := t.pct99_runtime,
    max_runtime := t.max_runtime }

/-- One row of the SQLite `runtimes` table, columns in `CREATE_SQL` order.
`update_time` (a timestamp, modelled as an integer) and `active` have the
defaults `CURRENT_TIMESTAMP` and `true`; the schema declares no primary key
and no UNIQUE constraint. -/
structure Row where
  tool_id : Str
  base_tool_id : Option Str
  tool_version : Str
  update_time : Int
  run_count : Int
  min_runtime : Option Int
  median_runtime : Option Int
  mean_runtime : Option Int
  pct95_runtime : Option Int
  pct99_runtime : Option Int
  max_runtime : Option Int
  active : Bool
deriving DecidableEq, Repr

/-- The `runtimes` table. -/
abbrev Table := List Row

/-- `INSERT_TOOL_SQL` executed with `tool.upsert_values()` at time `now`:
appends one new row; `update_time` and `active` take their column defaults
(`CURRENT_TIMESTAMP`, `true`).  The schema has no uniqueness constraint on
`(tool_id, tool_version)`, so the insert succeeds whether or not a row with
the same key is already present. -/
def insert_tool (tbl : Table) (v : UpsertValues) (now : Int) : Table :=
  tbl ++
    [{ tool_id := v.tool_id, base_tool_id := v.base_tool_id,
       tool_version := v.tool_version, update_time := now,
       run_count := v.run_count, min_runtime := v.min_runtime,
       median_runtime := v.median_runtime, mean_runtime := v.mean_runtime,
       pct95_runtime := v.pct95_runtime, pct99_runtime := v.pct99_runtime,
       max_runtime := v.max_runtime, active := true }]

/-- `UPDATE_TOOL_SQL` applied to one row: on a `(tool_id, tool_version)`
match, overwrites the stats columns and sets `update_time = datetime('now')`;
`base_tool_id` and `active` are untouched.  Other rows are unchanged. -/
def update_row (v : UpsertValues) (now : Int) (r : Row) : Row :=
  if r.tool_id = v.tool_id ∧ r.tool_version = v.tool_version then
    { r with update_time := now, run_count := v.run_count,
             min_runtime := v.min_runtime, median_runtime := v.median_runtime,
             mean_runtime := v.mean_runtime, pct95_runtime := v.pct95_runtime,
             pct99_runtime := v.pct99_runtime, max_runtime := v.max_runtime }
  else r

/-- `UPDATE_TOOL_SQL` executed with `tool.upsert_values()` at time `now`. -/
def update_tool (tbl : Table) (v : UpsertValues) (now : Int) : Table :=
  tbl.map (update_row v now)

/-- `DEACTIVATE_TOOL_SQL` applied to one row: on a `(tool_id, tool_version)`
match, sets `update_time = datetime('now')` and `active = false` and nothing
else.  Other rows are unchanged. -/
def deactivate_row (v : UpsertValues) (now : Int) (r : Row) : Row :=
  if r.tool_id = v.tool_id ∧ r.tool_version = v.tool_version then
    { r with update_time := now, active := false }
  else r

/-- `DEACTIVATE_TOOL_SQL` executed with `tool.upsert_values()` at time
`now` (the statement reads only the `tool_id` and `tool_version`
parameters). -/
def deactivate_tool (tbl : Table) (v : UpsertValues) (now : Int) : Table :=
  tbl.map (deactivate_row v now)

/-- `tool_factory(cursor, row)`: rebuilds a `Tool` from a `runtimes` row by
positional unpacking — `Tool(row[0], row[2], row[1], row[3], row[4], ...,
row[11])`, so the row's `base_tool_id` is passed as the explicit `base_id`
(and `set_base_id` re-asserts the startswith invariant). -/
def tool_factory (r : Row) : Except PyErr Tool :=
  mkTool r.tool_id r.tool_version r.base_tool_id (some r.update_time)
    r.run_count r.min_runtime r.median_runtime r.mean_runtime
    r.pct95_runtime r.pct99_runtime r.max_runtime r.active

/-- A Python `dict` keyed by tool key, in insertion order. -/
abbrev PyDict := List (Str × Tool)

/-- `d[k] = v` on a Python dict: replaces the value in place when the key is
present, appends otherwise. -/
def dictInsert (d : PyDict) (k : Str) (v : Tool) : PyDict :=
  if d.any (fun p => p.1 = k) then
    d.map (fun p => if p.1 = k then (k, v) else p)
  else d ++ [(k, v)]

/-- The key set of a Python dict (`set(d.keys())`). -/
def dictKeys (d : PyDict) : Finset Str := (d.map Prod.fst).toFinset

/-- `App.get_db_tools(for_update)`: selects the rows with `active` (and, for
the refresh variant, `update_time < datetime('now', f"-{older_than}")`,
i.e. `update_time < cutoff`), rebuilds each as a `Tool` through
`tool_factory`, and fills a dict keyed by `tool.key`.  An `AssertionError`
raised while rebuilding a row propagates. -/
def get_db_tools (tbl : Table) (for_update : Bool) (cutoff : Int) :
    Except PyErr PyDict :=
  (tbl.filter fun r => r.active ∧ (for_update → r.update_time < cutoff))
    |>.foldlM (fun d r => do
        let t ← tool_factory r
        pure (dictInsert d t.key t)) []

/-- The rows of a table carrying a given `(tool_id, tool_version)` key. -/
def rowsWithKey (tbl : Table) (tid ver : Str) : Table :=
  tbl.filter fun r => r.tool_id = tid ∧ r.tool_version = ver

/-- `App.upsert_tool(tool, sql)`: runs `COUNT_SQL` (`cnt`) and `SUMMARY_SQL`
(`summ`) against the external PostgreSQL source (modelled as functions of
the tool's id and version), stores the count, applies
`Tool.update_stats`, and commits with the given SQL statement
(`commit`, either the insert or the update).  A `TypeError` from
`update_stats` propagates before anything is committed. -/
def App.upsert_tool (cnt : Str → Str → Int) (summ : Str → Str → Summary)
    (commit : Table → UpsertValues → Table) (tbl : Table) (t : Tool) :
    Except PyErr Table := do
  let t1 : Tool := { t with run_count := cnt t.id t.version }
  let t2 ← t1.update_stats (summ t.id t.version)
  pure (commit tbl t2.upsert_values)

/-- The first loop of `App.handle_tool_changes`: for each catalog key not
among the active cache keys, `upsert_tool(server_tools[tool_key],
INSERT_TOOL_SQL)`.  Each insert commit stamps `update_time` with the
insert-phase clock `tIns`.  (Python iterates the key set in unspecified
order; the model iterates in catalog order.) -/
def insert_phase (cnt : Str → Str → Int) (summ : Str → Str → Summary)
    (tIns : Int) (server_tools : PyDict) (db_keys : Finset Str)
    (tbl : Table) : Except PyErr Table :=
  (server_tools.filter fun p => p.1 ∉ db_keys).foldlM
    (fun acc p =>
      App.upsert_tool cnt summ (fun tb v => insert_tool tb v tIns) acc p.2)
    tbl

/-- The third loop of `App.handle_tool_changes`: a fresh
`get_db_tools(for_update=True)` query against the current table, then
`upsert_tool(tool, UPDATE_TOOL_SQL)` for each stale active tool.  `cutoff`
is `datetime('now', f"-{older_than}")` at query time; each update commit
stamps `update_time` with the refresh-phase clock `tUpd`. -/
def refresh_phase (cnt : Str → Str → Int) (summ : Str → Str → Summary)
    (tUpd cutoff : Int) (tbl : Table) : Except PyErr Table := do
  let stale ← get_db_tools tbl true cutoff
  stale.foldlM
    (fun acc p =>
      App.upsert_tool cnt summ (fun tb v => update_tool tb v tUpd) acc p.2)
    tbl

/-- `App.handle_tool_changes()`.  `server_tools` is the dict
`get_server_tools()` built from the catalog fetch (an external
collaborator).  The second loop's body reads the local variable `tool`,
which is only ever assigned by the third loop's `for tool_key, tool in ...`
— so the first iteration over a nonempty
`db_tool_keys - server_tool_keys` raises `UnboundLocalError` before any
deactivation is committed; when that set is empty the loop body never runs
and control reaches the refresh loop. -/
def handle_tool_changes (cnt : Str → Str → Int) (summ : Str → Str → Summary)
    (server_tools : PyDict) (tIns tUpd cutoff : Int) (tbl : Table) :
    Except PyErr Table := do
  let db_tools ← get_db_tools tbl false 0
  let server_tool_keys := dictKeys server_tools
  let db_tool_keys := dictKeys db_tools
  let tbl1 ← insert_phase cnt summ tIns server_tools db_tool_keys tbl
  if (db_tool_keys \ server_tool_keys).Nonempty then
    Except.error PyErr.unboundLocal
  else
    refresh_phase cnt summ tUpd cutoff tbl1

/-- The attribute names class `App` defines (its methods and its one
property). -/
def appAttributes : List Str :=
  [("pg_con").data, ("make_db").data, ("get_server_tools").data,
   ("get_db_tools").data, ("run_count").data, ("summary_stats").data,
   ("commit_tool").data, ("upsert_tool").data,
   ("handle_tool_changes").data]

/-- The `--tool-id` branch of `main`: `tool_id, version =
args.tool_id.rsplit("/", 1)` (unpacking the one-element list rsplit returns
when there is no separator raises `ValueError`), `tool = Tool(args.tool_id,
version)`, then the attribute lookup `app.new_tool` — which is not an
attribute of `App`, so it raises `AttributeError`.  The model returns the
constructed tool on the (unreachable) success path. -/
def main_forced_tool (tool_id_arg : Str) : Except PyErr Tool := do
  match rsplitChar '/' tool_id_arg with
  | none => Except.error PyErr.valueError
  | some (_, version) => do
    let t ← mkToolDefault tool_id_arg version
    if ("new_tool").data ∈ appAttributes then Except.ok t
    else Except.error PyErr.attributeError

/-- The key set the first loop of `handle_tool_changes` iterates:
`server_tool_keys - db_tool_keys`. -/
def to_insert (server_tool_keys db_tool_keys : Finset Str) : Finset Str :=
  server_tool_keys \ db_tool_keys

/-- The key set the second loop of `handle_tool_changes` iterates:
`db_tool_keys - server_tool_keys`. -/
def to_deactivate (server_tool_keys db_tool_keys : Finset Str) : Finset Str :=
  db_tool_keys \ server_tool_keys

/-! ### Concrete sample data used by counterexamples and witnesses -/

/-- An active cache row for key `toolB/2.0` with fully populated stats. -/
def row_toolB : Row :=
  { tool_id := ("toolB/2.0").data, base_tool_id := some (("toolB").data),
    tool_version := ("2.0").data, update_time := 0, run_count := 7,
    min_runtime := some 1, median_runtime := some 2, mean_runtime := some 3,
    pct95_runtime := some 4, pct99_runtime := some 5, max_runtime := some 6,
    active := true }

/-- An active cache row for key `x/1`. -/
def row_x : Row :=
  { tool_id := ("x/1").data, base_tool_id := some (("x").data),
    tool_version := ("1").data, update_time := 0, run_count := 1,
    min_runtime := none, median_runtime := none, mean_runtime := none,
    pct95_runtime := none, pct99_runtime := none, max_runtime := none,
    active := true }

/-- Upsert parameters carrying the same `(tool_id, tool_version)` key as
`row_x`. -/
def vals_x : UpsertValues :=
  { tool_id := ("x/1").data, base_tool_id := some (("x").data),
    tool_version := ("1").data, run_count := 2, min_runtime := some 1,
    median_runtime := some 1, mean_runtime := some 1, pct95_runtime := some 1,
    pct99_runtime := some 1, max_runtime := some 1 }

/-- A summary whose median is 12.9 (and whose six persisted fields are all
non-null). -/
def sample_summary : Summary :=
  { emptySummary with
    min := some 1, median := some (mkRat 129 10), mean := some 3,
    perc_95 := some 4, perc_99 := some 5, max := some 6 }

/-- A freshly constructed in-memory tool, `Tool("toolA/1.0", "1.0")`. -/
def toolA : Tool :=
  { id := ("toolA/1.0").data, version := ("1.0").data,
    base_id := some (("toolA").data), update_time := none, run_count := -1,
    min_runtime := none, median_runtime := none, mean_runtime := none,
    pct95_runtime := none, pct99_runtime := none, max_runtime := none,
    active := true }

/-- A one-tool catalog dict: `{"toolA/1.0": Tool("toolA/1.0", "1.0")}`. -/
def serverA : PyDict := [(toolA.key, toolA)]

/-- The row the insert phase commits for `toolA` at time 0 when the count
query returns 3 and the summary query returns `sample_summary`. -/
def rowA : Row :=
  { tool_id := ("toolA/1.0").data, base_tool_id := some (("toolA").data),
    tool_version := ("1.0").data, update_time := 0, run_count := 3,
    min_runtime := some 1, median_runtime := some 12, mean_runtime := some 3,
    pct95_runtime := some 4, pct99_runtime := some 5, max_runtime := some 6,
    active := true }

/-- A constant run-count query result. -/
def cnt3 : Str → Str → Int := fun _ _ => 3

/-- A constant summary query result. -/
def summA : Str → Str → Summary := fun _ _ => sample_summary

end TimeDB

namespace TimeDB

/-! ### Claim theorems -/

/-- C1: the claim says that when the cache holds an active record whose key
is absent from the catalog, `handle_tool_changes` deactivates that key
exactly once.  In fact the deactivation loop's body reads the local
variable `tool`, which at that point has never been assigned (it is only
assigned by the later refresh loop), so the pass dies with
`UnboundLocalError` before any deactivation is committed: with active
cached `toolB/2.0` and an empty catalog the whole call errors out. -/
theorem handle_tool_changes_removed_tool_unbound_local :
    handle_tool_changes (fun _ _ => 0) (fun _ _ => emptySummary) [] 0 0 0
      [row_toolB] = Except.error PyErr.unboundLocal := rfl

/-- C2: the claim says a stats update for a tool with zero matching
successful runs must not crash.  The aggregation summary of zero rows is
all NULLs, and `Tool.update_stats` immediately calls `int(None)`, which
raises `TypeError`: the update crashes for every tool. -/
theorem update_stats_zero_rows_type_error (t : Tool) :
    t.update_stats emptySummary = Except.error PyErr.typeError := rfl

/-- C3 counterexample: with the cache already holding `row_x` (key
`("x/1", "1")`), executing the insert with values carrying that same key
does not fail — it leaves the table with two records for the key. -/
theorem insert_duplicate_key_counterexample :
    (rowsWithKey [row_x] (("x/1").data) (("1").data)).length = 1 ∧
    (rowsWithKey (insert_tool [row_x] vals_x 5) (("x/1").data)
        (("1").data)).length = 2 :=
  ⟨rfl, rfl⟩

/-- C3 amended: `CREATE_SQL` declares no primary-key or UNIQUE constraint,
so the insert never fails on a duplicate `(tool_id, tool_version)`: it
always appends one more row with that key, whatever the table already
holds. -/
theorem insert_duplicate_key_appends (tbl : Table) (v : UpsertValues)
    (now : Int) :
    (rowsWithKey (insert_tool tbl v now) v.tool_id v.tool_version).length
      = (rowsWithKey tbl v.tool_id v.tool_version).length + 1 := by
  simp [rowsWithKey, insert_tool, List.filter_append]

/-- C5: for any catalog key set C and cache-active key set D, the
reconciler's diff satisfies `to_insert = C − D`, `to_deactivate = D − C`,
`to_insert ∩ to_deactivate = ∅`, and
`to_insert ∪ to_deactivate ∪ (C ∩ D) = C ∪ D`; moreover the entries the
insert loop actually iterates (the catalog dict filtered to keys outside D)
carry exactly the keys `to_insert (dictKeys server_tools) D`. -/
theorem diff_completeness (C D : Finset Str) :
    to_insert C D = C \ D ∧ to_deactivate C D = D \ C ∧
    to_insert C D ∩ to_deactivate C D = ∅ ∧
    to_insert C D ∪ to_deactivate C D ∪ (C ∩ D) = C ∪ D ∧
    ∀ server_tools : PyDict,
      ((server_tools.filter fun p => p.1 ∉ D).map Prod.fst).toFinset
        = to_insert (dictKeys server_tools) D := by
  refine ⟨rfl, rfl, ?_, ?_, ?_⟩
  · ext k
    simp only [to_insert, to_deactivate, Finset.mem_inter, Finset.mem_sdiff,
      Finset.not_mem_empty, iff_false]
    tauto
  · ext k
    simp only [to_insert, to_deactivate, Finset.mem_union, Finset.mem_sdiff,
      Finset.mem_inter]
    tauto
  · intro server_tools
    ext k
    simp only [to_insert, dictKeys, List.mem_toFinset, List.mem_map,
      List.mem_filter, Finset.mem_sdiff, decide_eq_true_eq]
    constructor
    · rintro ⟨a, ⟨hal, haD⟩, rfl⟩
      exact ⟨⟨a, hal, rfl⟩, haD⟩
    · rintro ⟨⟨a, hal, rfl⟩, hk⟩
      exact ⟨a, ⟨hal, hk⟩, rfl⟩

/-- C6: constructing a tool with an explicit base id that is not a prefix
of the full id fails with the invariant-violation assert
(`assert self.id.startswith(self.base_id)`), and constructing one (with no
explicit base) whose full id contains a separator and whose suffix after
the last separator disagrees with the supplied version fails with the
version-mismatch assert (`assert self.version == id_version`); neither
construction succeeds. -/
theorem tool_identity_mismatch_detection :
    (∀ id version b update_time run_count mn md me p95 p99 mx active,
      ¬ b.isPrefixOf id = true →
      mkTool id version (some b) update_time run_count mn md me p95 p99 mx
        active = Except.error PyErr.invariantViolation) ∧
    (∀ id version pre suf update_time run_count mn md me p95 p99 mx active,
      rsplitChar '/' id = some (pre, suf) → version ≠ suf →
      mkTool id version none update_time run_count mn md me p95 p99 mx
        active = Except.error PyErr.versionMismatch) := by
  constructor
  · intro id version b u rc mn md me p95 p99 mx a h
    simp [mkTool, set_base_id, h]
  · intro id version pre suf u rc mn md me p95 p99 mx a hs hv
    simp [mkTool, set_base_id, hs, hv]

/-- C6 witness: `Tool("toolA", "1.0", base_id="x")` raises the
invariant-violation assert, and `Tool("toolA/2.0", "1.0")` raises the
version-mismatch assert. -/
theorem tool_identity_mismatch_detection_witness :
    mkTool (("toolA").data) (("1.0").data) (some (("x").data)) none (-1)
        none none none none none none true
      = Except.error PyErr.invariantViolation ∧
    mkToolDefault (("toolA/2.0").data) (("1.0").data)
      = Except.error PyErr.versionMismatch := by
  constructor
  · exact tool_identity_mismatch_detection.1 (("toolA").data) (("1.0").data)
      (("x").data) none (-1) none none none none none none true (by decide)
  · simpa [mkToolDefault] using
      tool_identity_mismatch_detection.2 (("toolA/2.0").data) (("1.0").data)
        (("toolA").data) (("2.0").data) none (-1) none none none none none
        none true (by decide) (by decide)

/-- C8: deactivation is non-destructive: row for row, `DEACTIVATE_TOOL_SQL`
preserves the identity columns, `run_count` and the six runtime stats
columns of every row; a row matching the `(tool_id, tool_version)` key gets
`active = false` and a refreshed `update_time`, and every other row is
entirely unchanged. -/
theorem deactivate_non_destructive (tbl : Table) (v : UpsertValues)
    (now : Int) :
    List.Forall₂ (fun r r' =>
      r'.tool_id = r.tool_id ∧ r'.base_tool_id = r.base_tool_id ∧
      r'.tool_version = r.tool_version ∧ r'.run_count = r.run_count ∧
      r'.min_runtime = r.min_runtime ∧ r'.median_runtime = r.median_runtime ∧
      r'.mean_runtime = r.mean_runtime ∧ r'.pct95_runtime = r.pct95_runtime ∧
      r'.pct99_runtime = r.pct99_runtime ∧ r'.max_runtime = r.max_runtime ∧
      (r.tool_id = v.tool_id ∧ r.tool_version = v.tool_version →
        r'.active = false ∧ r'.update_time = now) ∧
      (¬(r.tool_id = v.tool_id ∧ r.tool_version = v.tool_version) →
        r' = r))
      tbl (deactivate_tool tbl v now) := by
  rw [deactivate_tool, List.forall₂_map_right_iff]
  rw [List.forall₂_same]
  intro r _
  by_cases h : r.tool_id = v.tool_id ∧ r.tool_version = v.tool_version <;>
    simp [deactivate_row, h]

/-- C8 witness: the frame property at the concrete one-row table
`[row_toolB]`. -/
theorem deactivate_non_destructive_witness :
    List.Forall₂ (fun r r' =>
      r'.tool_id = r.tool_id ∧ r'.base_tool_id = r.base_tool_id ∧
      r'.tool_version = r.tool_version ∧ r'.run_count = r.run_count ∧
      r'.min_runtime = r.min_runtime ∧ r'.median_runtime = r.median_runtime ∧
      r'.mean_runtime = r.mean_runtime ∧ r'.pct95_runtime = r.pct95_runtime ∧
      r'.pct99_runtime = r.pct99_runtime ∧ r'.max_runtime = r.max_runtime ∧
      (r.tool_id = vals_x.tool_id ∧ r.tool_version = vals_x.tool_version →
        r'.active = false ∧ r'.update_time = 5) ∧
      (¬(r.tool_id = vals_x.tool_id ∧ r.tool_version = vals_x.tool_version) →
        r' = r))
      [row_toolB] (deactivate_tool [row_toolB] vals_x 5) :=
  deactivate_non_destructive [row_toolB] vals_x 5

theorem rsplitChar_eq_none_iff (sep : Char) (s : Str) :
    rsplitChar sep s = none ↔ sep ∉ s := by
  induction s with
  | nil => simp [rsplitChar]
  | cons c rest ih =>
    cases hr : rsplitChar sep rest with
    | some p =>
      have hmem : sep ∈ rest := by
        by_contra hn
        rw [ih.mpr hn] at hr
        cases hr
      simp [rsplitChar, hr, List.mem_cons, hmem]
    | none =>
      have h2 : sep ∉ rest := ih.mp hr
      by_cases hc : c = sep
      · subst hc
        simp [rsplitChar, hr, List.mem_cons]
      · simp [rsplitChar, hr, hc, List.mem_cons, h2, Ne.symm hc]

theorem rsplitChar_sep_not_mem_snd (sep : Char) :
    ∀ s a b : Str, rsplitChar sep s = some (a, b) → sep ∉ b := by
  intro s
  induction s with
  | nil => intro a b h; simp [rsplitChar] at h
  | cons c rest ih =>
    intro a b h
    cases hr : rsplitChar sep rest with
    | some p =>
      obtain ⟨a', b'⟩ := p
      simp only [rsplitChar, hr, Option.some.injEq, Prod.mk.injEq] at h
      rw [← h.2]
      exact ih a' b' hr
    | none =>
      by_cases hc : c = sep
      · subst hc
        simp only [rsplitChar, hr, eq_self_iff_true, if_true, ite_true,
          Option.some.injEq, Prod.mk.injEq] at h
        rw [← h.2]
        exact (rsplitChar_eq_none_iff c rest).mp hr
      · simp [rsplitChar, hr, hc] at h

theorem rsplitChar_append_sep (sep : Char) (b : Str) (hb : sep ∉ b) :
    ∀ a : Str, rsplitChar sep (a ++ sep :: b) = some (a, b) := by
  intro a
  induction a with
  | nil => simp [rsplitChar, (rsplitChar_eq_none_iff sep b).mpr hb]
  | cons c a' ih => simp [rsplitChar, ih]

/-- C7: for a full id containing a separator whose suffix after the last
separator equals the supplied version, `Tool(full_id, version)` succeeds,
its derived base id is the part before the last separator, its `key` is
`base_id + "/" + version`, and re-constructing a tool from that very key
string and the same version succeeds and yields an identical key. -/
theorem key_derivation_idempotent (id version pre suf : Str)
    (hsplit : rsplitChar '/' id = some (pre, suf)) (hver : version = suf) :
    ∃ t t' : Tool,
      mkToolDefault id version = Except.ok t ∧
      t.base_id = some pre ∧ t.key = pre ++ '/' :: version ∧
      mkToolDefault (pre ++ '/' :: version) version = Except.ok t' ∧
      t'.key = t.key := by
  subst hver
  have hnm : '/' ∉ version :=
    rsplitChar_sep_not_mem_snd '/' id pre version hsplit
  have h1 : mkToolDefault id version = Except.ok
      { id := id, version := version, base_id := some pre,
        update_time := none, run_count := -1, min_runtime := none,
        median_runtime := none, mean_runtime := none, pct95_runtime := none,
        pct99_runtime := none, max_runtime := none, active := true } := by
    simp [mkToolDefault, mkTool, set_base_id, hsplit]
  have h2 : mkToolDefault (pre ++ '/' :: version) version = Except.ok
      { id := pre ++ '/' :: version, version := version, base_id := some pre,
        update_time := none, run_count := -1, min_runtime := none,
        median_runtime := none, mean_runtime := none, pct95_runtime := none,
        pct99_runtime := none, max_runtime := none, active := true } := by
    simp [mkToolDefault, mkTool, set_base_id,
      rsplitChar_append_sep '/' version hnm]
  refine ⟨_, _, h1, ?_, ?_, h2, ?_⟩ <;> rfl

/-- C7 witness: the property at `Tool("toolA/1.0", "1.0")`. -/
theorem key_derivation_idempotent_witness :
    ∃ t t' : Tool,
      mkToolDefault (("toolA/1.0").data) (("1.0").data) = Except.ok t ∧
      t.base_id = some (("toolA").data) ∧
      t.key = ("toolA").data ++ '/' :: ("1.0").data ∧
      mkToolDefault (("toolA").data ++ '/' :: ("1.0").data) (("1.0").data)
        = Except.ok t' ∧ t'.key = t.key :=
  key_derivation_idempotent (("toolA/1.0").data) (("1.0").data)
    (("toolA").data) (("1.0").data) (by decide) rfl

/-- C9: on every successful stats update, each of the six persisted runtime
fields is `pyInt` of the matching summary field — Python `int()`, which
truncates toward zero (on non-negative values it is the floor, so 12.9 is
persisted as 12, not rounded to 13). -/
theorem update_stats_truncates (t t' : Tool) (s : Summary)
    (h : t.update_stats s = Except.ok t') :
    t'.min_runtime = s.min.map pyInt ∧
    t'.median_runtime = s.median.map pyInt ∧
    t'.mean_runtime = s.mean.map pyInt ∧
    t'.pct95_runtime = s.perc_95.map pyInt ∧
    t'.pct99_runtime = s.perc_99.map pyInt ∧
    t'.max_runtime = s.max.map pyInt ∧
    (∀ q : ℚ, 0 ≤ q → pyInt q = ⌊q⌋) := by
  obtain ⟨qmn, hmn⟩ : ∃ q, s.min = some q := by
    cases hm : s.min
    · exfalso; simp [Tool.update_stats, pyIntOpt, bind, Except.bind, hm] at h
    · exact ⟨_, rfl⟩
  obtain ⟨qmd, hmd⟩ : ∃ q, s.median = some q := by
    cases hm : s.median
    · exfalso; simp [Tool.update_stats, pyIntOpt, bind, Except.bind, hmn, hm] at h
    · exact ⟨_, rfl⟩
  obtain ⟨qme, hme⟩ : ∃ q, s.mean = some q := by
    cases hm : s.mean
    · exfalso; simp [Tool.update_stats, pyIntOpt, bind, Except.bind, hmn, hmd, hm] at h
    · exact ⟨_, rfl⟩
  obtain ⟨q95, h95⟩ : ∃ q, s.perc_95 = some q := by
    cases hm : s.perc_95
    · exfalso; simp [Tool.update_stats, pyIntOpt, bind, Except.bind, hmn, hmd, hme, hm] at h
    · exact ⟨_, rfl⟩
  obtain ⟨q99, h99⟩ : ∃ q, s.perc_99 = some q := by
    cases hm : s.perc_99
    · exfalso; simp [Tool.update_stats, pyIntOpt, bind, Except.bind, hmn, hmd, hme, h95, hm] at h
    · exact ⟨_, rfl⟩
  obtain ⟨qmx, hmx⟩ : ∃ q, s.max = some q := by
    cases hm : s.max
    · exfalso
      simp [Tool.update_stats, pyIntOpt, bind, Except.bind,
        hmn, hmd, hme, h95, h99, hm] at h
    · exact ⟨_, rfl⟩
  simp only [Tool.update_stats, pyIntOpt, hmn, hmd, hme, h95, h99, hmx,
    bind, Except.bind, Except.ok.injEq] at h
  subst h
  simp only [hmn, hmd, hme, h95, h99, hmx, Option.map_some]
  refine ⟨rfl, rfl, rfl, rfl, rfl, rfl, ?_⟩
  intro q hq
  simp [pyInt, hq]

/-- C9 witness: a summary with median 12.9 is persisted with
`median_runtime = 12`. -/
theorem update_stats_truncates_witness :
    ∃ t', Tool.update_stats toolA sample_summary = Except.ok t' ∧
      t'.median_runtime = some 12 := by
  refine ⟨_, rfl, ?_⟩
  have h := update_stats_truncates toolA _ sample_summary rfl
  rw [h.2.1]
  decide

theorem mem_dictKeys_dictInsert (d : PyDict) (k : Str) (v : Tool) :
    k ∈ dictKeys (dictInsert d k v) := by
  unfold dictInsert
  by_cases h : d.any (fun p => p.1 = k)
  · rcases List.any_eq_true.mp h with ⟨p, hp, hpe⟩
    simp only [h, if_true, dictKeys, List.mem_toFinset, List.mem_map]
    exact ⟨(k, v), ⟨p, hp, by simp [of_decide_eq_true hpe]⟩, rfl⟩
  · rw [if_neg h]
    simp only [dictKeys, List.mem_toFinset, List.map_append, List.mem_append,
      List.mem_map]
    exact Or.inr ⟨(k, v), by simp, rfl⟩

theorem dictKeys_subset_dictInsert (d : PyDict) (k : Str) (v : Tool) :
    dictKeys d ⊆ dictKeys (dictInsert d k v) := by
  intro x hx
  unfold dictInsert
  by_cases h : d.any (fun p => p.1 = k)
  · simp only [dictKeys, List.mem_toFinset, List.mem_map] at hx
    rcases hx with ⟨p, hp, rfl⟩
    simp only [h, if_true, dictKeys, List.mem_toFinset, List.mem_map]
    refine ⟨if p.1 = k then (k, v) else p, ⟨p, hp, rfl⟩, ?_⟩
    by_cases hpk : p.1 = k <;> simp [hpk]
  · simp only [dictKeys, List.mem_toFinset, List.mem_map] at hx
    rw [if_neg h]
    simp only [dictKeys, List.mem_toFinset, List.map_append, List.mem_append,
      List.mem_map]
    rcases hx with ⟨p, hp, rfl⟩
    exact Or.inl ⟨p, hp, rfl⟩

theorem get_db_fold_subset :
    ∀ (rows : List Row) (d0 d : PyDict),
      (rows.foldlM (fun d r => do
          let t ← tool_factory r
          pure (dictInsert d t.key t)) d0) = Except.ok d →
      dictKeys d0 ⊆ dictKeys d := by
  intro rows
  induction rows with
  | nil =>
    intro d0 d h
    simp only [List.foldlM_nil, pure, Except.pure, Except.ok.injEq] at h
    subst h
    exact Finset.Subset.refl _
  | cons a rows ih =>
    intro d0 d h
    cases htf : tool_factory a with
    | error e => simp [List.foldlM_cons, htf, bind, Except.bind] at h
    | ok t =>
      have h2 : (rows.foldlM (fun d r => do
          let t ← tool_factory r
          pure (dictInsert d t.key t)) (dictInsert d0 t.key t))
          = Except.ok d := by
        simpa [List.foldlM_cons, htf, bind, Except.bind, pure,
          Except.pure] using h
      exact (dictKeys_subset_dictInsert d0 t.key t).trans (ih _ d h2)

theorem get_db_fold_mem :
    ∀ (rows : List Row) (d0 d : PyDict),
      (rows.foldlM (fun d r => do
          let t ← tool_factory r
          pure (dictInsert d t.key t)) d0) = Except.ok d →
      ∀ r ∈ rows, ∃ t, tool_factory r = Except.ok t ∧ t.key ∈ dictKeys d := by
  intro rows
  induction rows with
  | nil => intro d0 d _ r hr; cases hr
  | cons a rows ih =>
    intro d0 d h r hr
    cases htf : tool_factory a with
    | error e => simp [List.foldlM_cons, htf, bind, Except.bind] at h
    | ok t =>
      have h2 : (rows.foldlM (fun d r => do
          let t ← tool_factory r
          pure (dictInsert d t.key t)) (dictInsert d0 t.key t))
          = Except.ok d := by
        simpa [List.foldlM_cons, htf, bind, Except.bind, pure,
          Except.pure] using h
      rcases List.mem_cons.mp hr with rfl | hr2
      · exact ⟨t, htf,
          get_db_fold_subset rows _ d h2 (mem_dictKeys_dictInsert d0 t.key t)⟩
      · exact ih _ d h2 r hr2

theorem get_db_tools_complete (tbl : Table) (fu : Bool) (cutoff : Int)
    (d : PyDict) (h : get_db_tools tbl fu cutoff = Except.ok d) :
    ∀ r ∈ tbl, r.active = true → (fu = true → r.update_time < cutoff) →
      ∃ t, tool_factory r = Except.ok t ∧ t.key ∈ dictKeys d := by
  intro r hr ha hc
  refine get_db_fold_mem _ _ _ h r ?_
  refine List.mem_filter.mpr ⟨hr, ?_⟩
  cases fu with
  | false => simp [ha]
  | true => simp [ha, hc rfl]

/-- C10: once the pass survives the deactivation loop (which requires
`db_tool_keys − server_tool_keys` to be empty) and the insert phase has
committed `tbl1`, `handle_tool_changes` continues as the refresh phase run
against `tbl1` — the refresh candidates come from a fresh
`get_db_tools(for_update=True)` query issued after the insertions were
committed, not from a snapshot taken before them — and that query selects
every active row of `tbl1` whose committed `update_time` is older than the
cutoff, rows inserted earlier in the same pass included. -/
theorem refresh_candidates_fresh_query (cnt : Str → Str → Int)
    (summ : Str → Str → Summary) (server_tools db_tools : PyDict)
    (tIns tUpd cutoff : Int) (tbl tbl1 : Table)
    (hdb : get_db_tools tbl false 0 = Except.ok db_tools)
    (hde : dictKeys db_tools \ dictKeys server_tools = ∅)
    (hins : insert_phase cnt summ tIns server_tools (dictKeys db_tools) tbl
      = Except.ok tbl1) :
    handle_tool_changes cnt summ server_tools tIns tUpd cutoff tbl
      = refresh_phase cnt summ tUpd cutoff tbl1 ∧
    ∀ stale : PyDict, get_db_tools tbl1 true cutoff = Except.ok stale →
      ∀ r ∈ tbl1, r.active = true → r.update_time < cutoff →
        ∃ t, tool_factory r = Except.ok t ∧ t.key ∈ dictKeys stale := by
  constructor
  · simp [handle_tool_changes, hdb, hins, hde, bind, Except.bind]
  · intro stale hst r hr ha hc
    exact get_db_tools_complete tbl1 true cutoff stale hst r hr ha
      (fun _ => hc)

/-- C10 witness: empty cache, one-tool catalog; the tool is inserted at
time 0, the refresh query's cutoff is 5, so the row inserted earlier in
the very same pass is selected for refresh. -/
theorem refresh_candidates_fresh_query_witness :
    handle_tool_changes cnt3 summA serverA 0 9 5 []
      = refresh_phase cnt3 summA 9 5 [rowA] ∧
    ∃ stale : PyDict, get_db_tools [rowA] true 5 = Except.ok stale ∧
      ∃ t, tool_factory rowA = Except.ok t ∧ t.key ∈ dictKeys stale := by
  have h := refresh_candidates_fresh_query cnt3 summA serverA [] 0 9 5 []
    [rowA] rfl (by decide) rfl
  refine ⟨h.1, _, rfl, ?_⟩
  exact h.2 _ rfl rowA (by simp) rfl (by decide)

/-- C4: the claim says the forced single-tool CLI path completes a stats
update without error.  In fact `main` calls `app.new_tool(tool)`, and class
`App` defines no attribute `new_tool`, so the path raises `AttributeError`
before touching any data (here on the input `--tool-id toolA/1.0`). -/
theorem main_forced_tool_attribute_error :
    main_forced_tool (("toolA/1.0").data) = Except.error PyErr.attributeError :=
  rfl

end TimeDB
